/-
  Verification of the "stick" firmware (piezo-triggered MIDI instrument and
  MIDI-triggered WAV player) against its natural-language specification.

  Shallow embedding: the relevant Python functions from
    firmware/main.py, firmware/lib/midi.py, firmware/lib/tca9548a.py,
    firmware/i2s_midi.py, firmware/config.py
  are translated into executable Lean definitions.  Machine integers are
  modelled as Nat / Int with explicit masking; the MicroPython millisecond
  tick counter is modelled with its wrap-safe difference; byte streams are
  lists of Nat; fallible bus operations return Except.
-/
import Mathlib

/-! ## Ticks and debounce (firmware/main.py, firmware/config.py)

MicroPython `time.ticks_ms` wraps modulo 2^30; `time.ticks_diff(a, b)`
is the wrap-safe signed difference `((a - b + 2^29) mod 2^30) - 2^29`. -/

def TICKS_PERIOD : Int := 2 ^ 30

def TICKS_HALF : Int := 2 ^ 29

def ticks_diff (a b : Nat) : Int :=
  (((a : Int) - (b : Int) + TICKS_HALF) % TICKS_PERIOD) - TICKS_HALF

/-- config.py: `DEBOUNCE_MS = 50`. -/
def DEBOUNCE_MS : Int := 50

/-- config.py: `POLL_MS = 5`. -/
def POLL_MS : Nat := 5

/-- Per-sensor debounce state, main.py:
`state = {(hub, ch, pin): (prev_value, last_hit_ms)}`. -/
structure SensorState where
  prev : Nat
  last_ms : Nat
deriving DecidableEq, Repr

/-- main.py initialization: `state[(hub_addr, ch, pin_idx)] = (val, 0)` where
`val` is the first raw read.  The last-hit timestamp starts at 0, not at the
boot tick. -/
def initState (val : Nat) : SensorState := ⟨val, 0⟩

/-- One poll-loop step for one sensor (main.py main loop):

    if current and not prev:
        if time.ticks_diff(now, last_ms) > DEBOUNCE_MS:
            handle_hit(sensor); state[key] = (current, now)
        else:
            state[key] = (current, last_ms)
    else:
        state[key] = (current, last_ms)

Returns the new state and whether `handle_hit` was called. -/
def debounceStep (st : SensorState) (now cur : Nat) : SensorState × Bool :=
  if cur ≠ 0 ∧ st.prev = 0 then
    if DEBOUNCE_MS < ticks_diff now st.last_ms then
      (⟨cur, now⟩, true)
    else
      (⟨cur, st.last_ms⟩, false)
  else
    (⟨cur, st.last_ms⟩, false)

/-- Run the poll loop for one sensor over a trace of `(now, current)` samples;
returns the final state and the number of `handle_hit` calls. -/
def debounceRun (st : SensorState) : List (Nat × Nat) → SensorState × Nat
  | [] => (st, 0)
  | (t, cur) :: rest =>
    let sc := debounceStep st t cur
    let r := debounceRun sc.1 rest
    (r.1, (if sc.2 then 1 else 0) + r.2)

/-- Times at which the level trace shows a low-to-high (idle-to-hit) rising
edge, given the level seen just before the trace. -/
def risingTimes (prev : Nat) : List (Nat × Nat) → List Nat
  | [] => []
  | (t, cur) :: rest =>
    if cur ≠ 0 ∧ prev = 0 then t :: risingTimes cur rest
    else risingTimes cur rest

/-- A stretch of poll cycles during which the sensor reads idle (level 0). -/
def lowTrace (ts : List Nat) : List (Nat × Nat) := ts.map (fun t => (t, 0))

/-- A stretch of poll cycles during which the sensor reads hit (level 1). -/
def highTrace (ts : List Nat) : List (Nat × Nat) := ts.map (fun t => (t, 1))

/-! ## MIDI encoder (firmware/lib/midi.py) -/

def MIDI_NOTE_ON : Nat := 0x90

def MIDI_NOTE_OFF : Nat := 0x80

/-- midi.py `MidiOut`: the constructor stores `channel & 0x0F`. -/
structure MidiOut where
  channel : Nat
deriving Repr

def MidiOut.init (channel : Nat) : MidiOut := ⟨channel &&& 0x0F⟩

/-- `uart.write(bytes([_NOTE_ON | self.channel, note & 0x7F, velocity & 0x7F]))` -/
def MidiOut.note_on (m : MidiOut) (note velocity : Nat) : List Nat :=
  [MIDI_NOTE_ON ||| m.channel, note &&& 0x7F, velocity &&& 0x7F]

/-- `uart.write(bytes([_NOTE_OFF | self.channel, note & 0x7F, velocity & 0x7F]))` -/
def MidiOut.note_off (m : MidiOut) (note velocity : Nat) : List Nat :=
  [MIDI_NOTE_OFF ||| m.channel, note &&& 0x7F, velocity &&& 0x7F]

/-! ## MIDI decoder (firmware/i2s_midi.py, `Player.run`)

The decoder loop is modelled over a finite byte list; a `uart.read(1)`
returning `None` corresponds to the end of the list.  The result collects,
in order, every completed two-data-byte message as a `(msg, data1, data2)`
triple, and separately the notes for which playback was triggered
(`msg == 0x90 and data2 > 0`).  `fuel` bounds the number of outer loop
iterations; each iteration consumes at least one byte, so
`bytes.length + 1` fuel is always sufficient. -/

/-- Inner SysEx loop: `read until the byte 0xF7 or stream end`; returns the
remaining stream after the terminator. -/
def skipSysex : List Nat → List Nat
  | [] => []
  | b :: rest => if b = 0xF7 then rest else skipSysex rest

def decodeRun : Nat → Nat → List Nat → List (Nat × Nat × Nat) × List Nat
  | 0, _, _ => ([], [])
  | fuel + 1, status, bs =>
    match bs with
    | [] => ([], [])
    | b :: rest =>
      let sd : Nat × Option (Nat × List Nat) :=
        if b &&& 0x80 ≠ 0 then
          match rest with
          | [] => (b, none)
          | d1 :: r1 => (b, some (d1 &&& 0x7F, r1))
        else
          (status, some (b &&& 0x7F, rest))
      match sd.2 with
      | none => ([], [])
      | some (data1, r1) =>
        let status2 := sd.1
        let msg := status2 &&& 0xF0
        if msg = 0x90 ∨ msg = 0x80 ∨ msg = 0xA0 ∨ msg = 0xB0 ∨ msg = 0xE0 then
          match r1 with
          | [] => ([], [])
          | d2 :: r2 =>
            let data2 := d2 &&& 0x7F
            let r := decodeRun fuel status2 r2
            ((msg, data1, data2) :: r.1,
             if msg = 0x90 ∧ data2 > 0 then data1 :: r.2 else r.2)
        else if msg = 0xC0 ∨ msg = 0xD0 then
          decodeRun fuel status2 r1
        else if status2 = 0xF0 then
          decodeRun fuel status2 (skipSysex r1)
        else
          decodeRun fuel status2 r1

/-- Decode a complete inbound byte stream starting with running status 0. -/
def decode (bs : List Nat) : List (Nat × Nat × Nat) × List Nat :=
  decodeRun (bs.length + 1) 0 bs

/-! ## TCA9548A multiplexer driver (firmware/lib/tca9548a.py) and
`read_sensor` (firmware/main.py)

`SoftI2C.writeto` raises `OSError` on a bus timeout / missing
acknowledgement; `select` raises `ValueError` on an out-of-range channel.
Neither `select`, `read_pins` nor `read_sensor` contains any
`try`/`except`, so both errors are modelled as `Except.error` values that
every caller in the sensor path propagates unchanged.  The second
component of a successful result records the bytes written on the bus as
`(i2c address, data byte)` pairs. -/

inductive PyErr where
  | osError
  | valueError
deriving DecidableEq, Repr

/-- Driver state: the I2C address and the `_channel` cache (starts at -1). -/
structure TCA9548A where
  address : Nat
  channel : Int
deriving DecidableEq, Repr

/-- tca9548a.py `select`:

    if channel < 0 or channel > 7: raise ValueError(...)
    i2c.writeto(self.address, bytes([1 << channel]))
    self._channel = channel

`busOk` tells whether the bus write is acknowledged; a failed write raises
`OSError` before `_channel` is updated. -/
def TCA9548A.select (t : TCA9548A) (busOk : Bool) (channel : Int) :
    Except PyErr (TCA9548A × List (Nat × Nat)) :=
  if channel < 0 ∨ channel > 7 then .error .valueError
  else if busOk then .ok (⟨t.address, channel⟩, [(t.address, 2 ^ channel.toNat)])
  else .error .osError

/-- tca9548a.py `read_pins`: `self.select(channel)` then read the SDA/SCL
lines as digital inputs.  `sda`/`scl` are the line levels the environment
presents. -/
def TCA9548A.read_pins (t : TCA9548A) (busOk : Bool) (channel : Int)
    (sda scl : Nat) : Except PyErr (TCA9548A × List (Nat × Nat) × (Nat × Nat)) :=
  match t.select busOk channel with
  | .error e => .error e
  | .ok (t2, ws) => .ok (t2, ws, (sda, scl))

/-- main.py `read_sensor`:

    a, b = mux.read_pins(ch)
    raw = a if pin_idx == 0 else b
    return 1 if raw == 0 else 0  # invert: active-low

There is no exception handler on this path. -/
def read_sensor (t : TCA9548A) (busOk : Bool) (channel : Int) (pin_idx : Nat)
    (sda scl : Nat) : Except PyErr (TCA9548A × Nat) :=
  match t.read_pins busOk channel sda scl with
  | .error e => .error e
  | .ok (t2, _ws, ab) =>
    let raw := if pin_idx = 0 then ab.1 else ab.2
    .ok (t2, if raw = 0 then 1 else 0)

/-! ## WAV container header parsing (firmware/i2s_midi.py, `parse_wav_header`)

The open file is modelled as the list of bytes remaining from the current
position: `f.read(n)` is `take n` / `drop n`, `f.seek(csz, 1)` is
`drop csz`.  `struct.unpack` raises `struct.error` unless the slice has
exactly the required size; such an exception would propagate uncaught
(`WavResult.exn`).  Returning `None` is `WavResult.fail`.  `fuel` bounds
the chunk-scan iterations; every iteration consumes at least 8 bytes, so
`bytes.length + 1` fuel is always sufficient. -/

def RIFF_ID : List Nat := [0x52, 0x49, 0x46, 0x46]

def WAVE_ID : List Nat := [0x57, 0x41, 0x56, 0x45]

def FMT_ID : List Nat := [0x66, 0x6D, 0x74, 0x20]

def DATA_ID : List Nat := [0x64, 0x61, 0x74, 0x61]

/-- Little-endian value of a byte list. -/
def lenum : List Nat → Nat
  | [] => 0
  | b :: rest => b + 256 * lenum rest

/-- Python slice `l[a:b]`. -/
def listSlice (l : List Nat) (a b : Nat) : List Nat := (l.take b).drop a

/-- `struct.unpack('<H', l)[0]`; `none` models a raised `struct.error`. -/
def unpackH (l : List Nat) : Option Nat :=
  if l.length = 2 then some (lenum l) else none

/-- `struct.unpack('<I', l)[0]`; `none` models a raised `struct.error`. -/
def unpackI (l : List Nat) : Option Nat :=
  if l.length = 4 then some (lenum l) else none

inductive WavResult where
  /-- `(channels, sampwidth, framerate, data_size)` together with the bytes
  remaining after the data chunk header, i.e. the start of audio data. -/
  | ok (channels sampwidth framerate dataSize : Nat) (rest : List Nat)
  /-- `parse_wav_header` returned `None`. -/
  | fail
  /-- an uncaught `struct.error` escaped `parse_wav_header`. -/
  | exn
deriving DecidableEq, Repr

/-- The `while True` chunk scan of `parse_wav_header`:

    chunk_hdr = f.read(8)
    if len(chunk_hdr) < 8: break            # falls through to `return None`
    cid = chunk_hdr[:4]
    csz = struct.unpack('<I', chunk_hdr[4:8])[0]
    if cid == b'fmt ':
        fmt = f.read(csz)
        channels  = struct.unpack('<H', fmt[2:4])[0]
        framerate = struct.unpack('<I', fmt[4:8])[0]
        sampwidth = struct.unpack('<H', fmt[14:16])[0] // 8
        fmt_info = (channels, sampwidth, framerate)
    elif cid == b'data':
        if fmt_info is None: return None
        return fmt_info[0], fmt_info[1], fmt_info[2], csz
    else:
        f.seek(csz, 1)
-/
def parseLoop : Nat → List Nat → Option (Nat × Nat × Nat) → WavResult
  | 0, _, _ => .fail
  | fuel + 1, bs, fmt_info =>
    let chunk_hdr := bs.take 8
    if chunk_hdr.length < 8 then .fail
    else
      let bs1 := bs.drop 8
      let cid := listSlice chunk_hdr 0 4
      let csz := lenum (listSlice chunk_hdr 4 8)
      if cid = FMT_ID then
        let fmt := bs1.take csz
        match unpackH (listSlice fmt 2 4), unpackI (listSlice fmt 4 8),
              unpackH (listSlice fmt 14 16) with
        | some channels, some framerate, some bits =>
          parseLoop fuel (bs1.drop csz) (some (channels, bits / 8, framerate))
        | _, _, _ => .exn
      else if cid = DATA_ID then
        match fmt_info with
        | none => .fail
        | some info => .ok info.1 info.2.1 info.2.2 csz bs1
      else
        parseLoop fuel (bs1.drop csz) fmt_info

/-- i2s_midi.py `parse_wav_header`:

    hdr = f.read(12)
    if len(hdr) < 12 or hdr[:4] != b'RIFF' or hdr[8:12] != b'WAVE':
        return None
    ... chunk scan ...
-/
def parse_wav_header (bs : List Nat) : WavResult :=
  let hdr := bs.take 12
  if hdr.length < 12 ∨ listSlice hdr 0 4 ≠ RIFF_ID ∨ listSlice hdr 8 12 ≠ WAVE_ID
    then .fail
  else parseLoop (bs.length + 1) (bs.drop 12) none

/-! Generic container builders used to quantify over stream families. -/

/-- A chunk as laid out on disk: id, declared little-endian length, payload. -/
def le32enc (n : Nat) : List Nat :=
  [n % 256, n / 256 % 256, n / 65536 % 256, n / 16777216 % 256]

def encChunk (id payload : List Nat) : List Nat :=
  id ++ le32enc payload.length ++ payload

/-- Chunks the scan must skip: a 4-byte id that is neither `fmt ` nor
`data`, and a payload matching the declared (encodable) length. -/
def JunkWF (js : List (List Nat × List Nat)) : Prop :=
  ∀ p ∈ js, p.1.length = 4 ∧ p.1 ≠ FMT_ID ∧ p.1 ≠ DATA_ID ∧ p.2.length < 2 ^ 32

instance : DecidablePred JunkWF := fun js =>
  List.decidableBAll _ js

def flatJunk : List (List Nat × List Nat) → List Nat
  | [] => []
  | p :: js => encChunk p.1 p.2 ++ flatJunk js

/-- A standard 16-byte PCM format-chunk payload declaring 2 channels,
44100 Hz, 16 bits per sample; the audio-format tag, byte rate and block
align fields are arbitrary bytes. -/
def fmtPayload16 (a0 a1 r0 r1 r2 r3 k0 k1 : Nat) : List Nat :=
  [a0, a1, 2, 0, 0x44, 0xAC, 0, 0, r0, r1, r2, r3, k0, k1, 16, 0]

/-- A minimal valid container: signature, one format chunk (2 channels,
16-bit, 44100 Hz), then a data chunk declaring `dataSize` bytes followed by
`payload`. -/
def minimalWav (dataSize : Nat) (payload : List Nat) : List Nat :=
  RIFF_ID ++ [0, 0, 0, 0] ++ WAVE_ID ++
    (encChunk FMT_ID (fmtPayload16 1 0 0 0 0 0 0 0) ++
      (DATA_ID ++ le32enc dataSize ++ payload))

/-! ## WAV streaming (firmware/i2s_midi.py, `Player.play`)

`Player.play` streams `CHUNK`-byte reads to `audio.write`, checking
`uart.any()` before every read and aborting when new MIDI bytes have
arrived.  The inbound-byte environment is modelled by `flags`: the value
`uart.any()` returns at the k-th check (`false` once the list is
exhausted).  `fuel` bounds the loop; every iteration consumes at least one
byte of `remaining`, so `remaining + 1` fuel is always sufficient. -/

def CHUNK : Nat := 1024

/-- `self.silence = bytearray(512)`. -/
def silenceBytes : List Nat := List.replicate 512 0

/-- The 8-bit to 16-bit expansion applied to each sample byte:

    val = (self.buf[i] - 128) << 8
    self.buf16[i * 2] = val & 0xFF
    self.buf16[i * 2 + 1] = (val >> 8) & 0xFF

Python ints: `<< 8` is multiplication by 256, `>> 8` is floor division by
256, and `& 0xFF` on a (possibly negative) int is the nonnegative
remainder mod 256. -/
def expand8 (b : Nat) : List Nat :=
  let val : Int := ((b : Int) - 128) * 256
  [(val % 256).toNat, ((Int.fdiv val 256) % 256).toNat]

/-- Signed 16-bit value of a 2-byte little-endian list (what the I2S sink
receives); other shapes decode to 0. -/
def sint16OfLE : List Nat → Int
  | [lo, hi] =>
    let u := lo + 256 * hi
    if u < 32768 then (u : Int) else (u : Int) - 65536
  | _ => 0

/-- The streaming loop of `Player.play`:

    while remaining > 0:
        if self.uart.any(): break
        n = f.readinto(self.buf, min(CHUNK, remaining))
        if n == 0: break
        if is_8bit: ...expand...; self.audio.write(self.buf16[:n*2])
        else: self.audio.write(self.buf[:n])
        remaining -= n

Returns the list of `audio.write` payloads and the value of `remaining`
when the loop exits. -/
def playLoop : Nat → List Nat → Nat → List Bool → Bool → List (List Nat) × Nat
  | 0, _, remaining, _, _ => ([], remaining)
  | fuel + 1, bs, remaining, flags, is8 =>
    if remaining = 0 then ([], 0)
    else if flags.headD false then ([], remaining)
    else
      let n := min (min CHUNK remaining) bs.length
      if n = 0 then ([], remaining)
      else
        let chunk := bs.take n
        let w := if is8 then chunk.flatMap expand8 else chunk
        let r := playLoop fuel (bs.drop n) (remaining - n) flags.tail is8
        (w :: r.1, r.2)

/-- Observable outcome of one `Player.play` call. -/
structure PlayResult where
  /-- `audio.write` payloads, in order. -/
  writes : List (List Nat)
  /-- whether `f.close()` ran. -/
  closed : Bool
  /-- `remaining` when the streaming loop exited (0 if it never ran). -/
  remainingAtExit : Nat
  /-- whether an uncaught exception escaped `play`. -/
  crashed : Bool
deriving DecidableEq, Repr

/-- i2s_midi.py `Player.play` on an already-open file:

    info = parse_wav_header(f)
    if info is None: f.close(); return
    _ch, sw, _rate, data_size = info
    remaining = data_size; is_8bit = (sw == 1)
    ... streaming loop ...
    self.audio.write(self.silence)
    f.close()
-/
def Player.play (bs : List Nat) (flags : List Bool) : PlayResult :=
  match parse_wav_header bs with
  | .fail => ⟨[], true, 0, false⟩
  | .exn => ⟨[], false, 0, true⟩
  | .ok _ch sw _rate data_size rest =>
    let is8 := sw = 1
    let r := playLoop (data_size + 1) rest data_size flags is8
    ⟨r.1 ++ [silenceBytes], true, r.2, false⟩

/-! ## Theorems -/

/-- Claim C10: every sensor's last-accepted-hit timestamp is initialized to
0 (main.py: `state[(hub_addr, ch, pin_idx)] = (val, 0)`), not to the
boot-time tick, so a genuine first rising edge at a tick `t` with
`ticks_diff(t, 0) ≤ DEBOUNCE_MS` fires no hit event and leaves the
timestamp at 0, even though no hit was ever accepted on that sensor. -/
theorem c10_initial_timestamp_zero (t : Nat)
    (h : ticks_diff t 0 ≤ DEBOUNCE_MS) :
    debounceStep (initState 0) t 1 = (⟨1, 0⟩, false) := by
  unfold debounceStep initState
  rw [if_pos (by exact ⟨one_ne_zero, rfl⟩), if_neg (not_lt.mpr h)]

/-- Witness for C10 at the concrete boot-adjacent tick t = 30. -/
theorem c10_initial_timestamp_zero_witness :
    ticks_diff 30 0 ≤ DEBOUNCE_MS ∧
      debounceStep (initState 0) 30 1 = (⟨1, 0⟩, false) :=
  ⟨by decide, c10_initial_timestamp_zero 30 (by decide)⟩

set_option maxRecDepth 4096 in
/-- Claim C8: each 8-bit unsigned sample byte v is forwarded to the audio
sink as the little-endian signed 16-bit value (v - 128) << 8; in
particular 0x00 maps to -32768, 0x80 to 0, and 0xFF to 32512, and an
8-bit play chunk is written as exactly this per-byte expansion. -/
theorem c8_sample_expand :
    (∀ v : Fin 256, sint16OfLE (expand8 v.val) = ((v.val : Int) - 128) * 256) ∧
    sint16OfLE (expand8 0x00) = -32768 ∧
    sint16OfLE (expand8 0x80) = 0 ∧
    sint16OfLE (expand8 0xFF) = 32512 ∧
    playLoop 4 [0x00, 0x80, 0xFF] 3 [] true = ([[0, 128, 0, 0, 0, 127]], 0) := by
  decide

/-- Counterexample to claim C5: with the bus failing (no acknowledgement,
so `SoftI2C.writeto` raises `OSError`), `read_sensor` does not yield the
no-hit value `Except.ok (_, 0)`; the error propagates out of the sensor
path, which contains no exception handler. -/
theorem c5_bus_failure_counterexample :
    read_sensor ⟨0x70, -1⟩ false 0 0 1 1 = Except.error PyErr.osError := by
  rfl

/-- Claim C5 as amended: for every hub state and every in-range channel, a
failed bus write makes `read_sensor` propagate `OSError` to its caller
(the main loop, which has no handler); the cycle does not degrade to
"no hit", and no logging-throttle state exists anywhere on this path. -/
theorem c5_bus_failure_propagates (t : TCA9548A) (ch : Int) (pin sda scl : Nat)
    (h0 : 0 ≤ ch) (h7 : ch ≤ 7) :
    read_sensor t false ch pin sda scl = Except.error PyErr.osError := by
  have hng : ¬(ch < 0 ∨ ch > 7) := by omega
  simp [read_sensor, TCA9548A.read_pins, TCA9548A.select, hng]

/-- Witness for the amended C5 at hub 0x70, channel 4, pin A. -/
theorem c5_bus_failure_propagates_witness :
    (0 : Int) ≤ 4 ∧ (4 : Int) ≤ 7 ∧
      read_sensor ⟨0x70, -1⟩ false 4 0 1 1 = Except.error PyErr.osError :=
  ⟨by decide, by decide,
    c5_bus_failure_propagates ⟨0x70, -1⟩ 4 0 1 1 (by decide) (by decide)⟩

/-- Counterexample to claim C6: on a hub whose cached channel `_channel`
already equals the target channel 3, `read_pins 3` still issues the
select write `(address, 1 << 3)` on the bus — the claim said no select
write is performed in this case. -/
theorem c6_select_counterexample :
    TCA9548A.read_pins ⟨0x70, 3⟩ true 3 1 1 =
      Except.ok (⟨0x70, 3⟩, [(0x70, 8)], (1, 1)) := by
  rfl

/-- Claim C6 as amended: `select` never consults the `_channel` cache (the
field is assigned but never read), so every `read_pins` call issues
exactly one select write `(address, 1 << channel)` on the bus, whatever
the cached channel is. -/
theorem c6_select_always_writes (t : TCA9548A) (ch : Int) (sda scl : Nat)
    (h0 : 0 ≤ ch) (h7 : ch ≤ 7) :
    TCA9548A.read_pins t true ch sda scl =
      Except.ok (⟨t.address, ch⟩, [(t.address, 2 ^ ch.toNat)], (sda, scl)) := by
  have hng : ¬(ch < 0 ∨ ch > 7) := by omega
  simp [TCA9548A.read_pins, TCA9548A.select, hng]

/-- Witness for the amended C6 on a hub whose cache already holds the
target channel 5. -/
theorem c6_select_always_writes_witness :
    (0 : Int) ≤ 5 ∧ (5 : Int) ≤ 7 ∧
      TCA9548A.read_pins ⟨0x71, 5⟩ true 5 0 1 =
        Except.ok (⟨0x71, 5⟩, [(0x71, 32)], (0, 1)) :=
  ⟨by decide, by decide,
    c6_select_always_writes ⟨0x71, 5⟩ 5 0 1 (by decide) (by decide)⟩

/-- Counterexample to claim C7: on the stream F0 F7 followed by a complete
note-on with velocity > 0, the decoder consumes the F7 as the data byte it
unconditionally reads after any status byte, then the SysEx skip loop
swallows the whole note-on looking for another F7 — no message is parsed
and no playback is triggered, where the claim promised the note-on plays. -/
theorem c7_sysex_counterexample :
    decode [0xF0, 0xF7, 0x90, 0x45, 0x7F] = ([], []) := by
  decide

/-- Claim C7 as amended: on status 0xF0 the decoder first consumes one
following byte as a data byte without comparing it to 0xF7, and only then
skips byte-by-byte until a terminator 0xF7 or stream end, resuming
normally after the terminator (first conjunct).  Hence a SysEx with at
least one data byte is skipped correctly and a following note-on plays
(second conjunct), but for the stream F0 F7 note-on, the terminator is
eaten as the data byte and the note-on is swallowed, so nothing plays
(third conjunct). -/
theorem c7_sysex_skip (junk tail : List Nat) (h : 0xF7 ∉ junk) :
    skipSysex (junk ++ 0xF7 :: tail) = tail ∧
    decode [0xF0, 0x01, 0x02, 0xF7, 0x90, 0x45, 0x7F] =
      ([(0x90, 0x45, 0x7F)], [0x45]) ∧
    decode [0xF0, 0xF7, 0x90, 0x45, 0x7F] = ([], []) := by
  refine ⟨?_, by decide, by decide⟩
  induction junk with
  | nil => simp [skipSysex]
  | cons b bsj ih =>
    have hb : b ≠ 0xF7 := fun hb => h (hb ▸ List.mem_cons_self b bsj)
    have hm : 0xF7 ∉ bsj := fun hm => h (List.mem_cons_of_mem b hm)
    simpa [skipSysex, hb] using ih hm

/-! Helper lemmas for the debounce loop. -/

theorem debounceRun_append (st : SensorState) (xs ys : List (Nat × Nat)) :
    debounceRun st (xs ++ ys) =
      ((debounceRun (debounceRun st xs).1 ys).1,
       (debounceRun st xs).2 + (debounceRun (debounceRun st xs).1 ys).2) := by
  induction xs generalizing st with
  | nil => simp [debounceRun]
  | cons p xs ih =>
    obtain ⟨t, cur⟩ := p
    simp [debounceRun, ih, Nat.add_assoc]

theorem debounceRun_seq (st st1 st2 : SensorState) (xs ys : List (Nat × Nat))
    (n1 n2 : Nat) (hx : debounceRun st xs = (st1, n1))
    (hy : debounceRun st1 ys = (st2, n2)) :
    debounceRun st (xs ++ ys) = (st2, n1 + n2) := by
  rw [debounceRun_append, hx]
  simp [hy]


theorem debounceRun_low (ts : List Nat) (p L : Nat) :
    debounceRun ⟨p, L⟩ (lowTrace ts) =
      (⟨if ts.isEmpty then p else 0, L⟩, 0) := by
  induction ts generalizing p with
  | nil => simp [debounceRun, lowTrace]
  | cons t ts ih => simp [debounceRun, lowTrace, debounceStep, ih, lowTrace] at ih ⊢; simp [ih]

theorem debounceRun_high (ts : List Nat) (L : Nat) :
    debounceRun ⟨1, L⟩ (highTrace ts) = (⟨1, L⟩, 0) := by
  induction ts with
  | nil => simp [debounceRun, highTrace]
  | cons t ts ih => simp [debounceRun, highTrace, debounceStep] at ih ⊢; simp [ih]

/-- A poll trace for one sensor holding exactly two low-to-high rising
edges, at times t1 and t2: idle readings, the first edge, a held-high
stretch, at least one idle reading, the second edge, then arbitrary
held-high and idle stretches. -/
def twoEdgeTrace (a : List Nat) (t1 : Nat) (b : List Nat) (c : Nat)
    (cs : List Nat) (t2 : Nat) (d e : List Nat) : List (Nat × Nat) :=
  lowTrace a ++ [(t1, 1)] ++ highTrace b ++ lowTrace (c :: cs) ++
    [(t2, 1)] ++ highTrace d ++ lowTrace e

/-- Counterexample to claim C1: a raw level sequence with exactly two
rising edges (at ticks 10 and 20, hence closer than DEBOUNCE_MS = 50)
on which the poll loop fires zero hit events, not one: because the
last-accepted-hit timestamp is initialized to 0, both early edges are
inside the debounce window of a hit that never happened. -/
theorem c1_debounce_counterexample :
    risingTimes 0 [(10, 1), (15, 0), (20, 1)] = [10, 20] ∧
    ticks_diff 20 10 < DEBOUNCE_MS ∧
    (debounceRun (initState 0) [(10, 1), (15, 0), (20, 1)]).2 = 0 := by
  decide

/-- Claim C1 as amended: for every raw level sequence with exactly two
rising edges at ticks t1 and t2 closer than the debounce window,
*provided the first edge itself is accepted* (its wrap-safe distance from
the sensor's current last-accepted-hit timestamp L exceeds DEBOUNCE_MS),
the poll loop fires exactly one hit event: the first edge fires, the
second is suppressed, and the suppressed edge leaves the
last-accepted-hit timestamp at t1. -/
theorem c1_debounce_two_edges (L t1 t2 c : Nat) (a b cs d e : List Nat)
    (h1 : DEBOUNCE_MS < ticks_diff t1 L)
    (h2 : ticks_diff t2 t1 < DEBOUNCE_MS) :
    (debounceRun ⟨0, L⟩ (twoEdgeTrace a t1 b c cs t2 d e)).2 = 1 ∧
    (debounceRun ⟨0, L⟩ (twoEdgeTrace a t1 b c cs t2 d e)).1.last_ms = t1 := by
  have hs1 : debounceRun ⟨0, L⟩ [(t1, 1)] = (⟨1, t1⟩, 1) := by
    simp [debounceRun, debounceStep, h1]
  have hs2 : debounceRun ⟨0, t1⟩ [(t2, 1)] = (⟨1, t1⟩, 0) := by
    simp [debounceRun, debounceStep, not_lt.mpr (le_of_lt h2)]
  have eA : debounceRun ⟨0, L⟩ (lowTrace a) = (⟨0, L⟩, 0) := by
    simpa using debounceRun_low a 0 L
  have eC : debounceRun ⟨1, t1⟩ (lowTrace (c :: cs)) = (⟨0, t1⟩, 0) := by
    simpa using debounceRun_low (c :: cs) 1 t1
  have h67 := debounceRun_seq _ _ _ _ _ _ _
    (debounceRun_high d t1) (debounceRun_low e 1 t1)
  have h567 := debounceRun_seq _ _ _ _ _ _ _ hs2 h67
  have h4567 := debounceRun_seq _ _ _ _ _ _ _ eC h567
  have h34567 := debounceRun_seq _ _ _ _ _ _ _ (debounceRun_high b t1) h4567
  have h234567 := debounceRun_seq _ _ _ _ _ _ _ hs1 h34567
  have hAll := debounceRun_seq _ _ _ _ _ _ _ eA h234567
  unfold twoEdgeTrace
  simp only [List.append_assoc]
  rw [hAll]
  constructor <;> simp

/-- Witness for the amended C1: previous hit at tick 0, accepted edge at
tick 100, suppressed edge at tick 120, with idle/held samples around. -/
theorem c1_debounce_two_edges_witness :
    DEBOUNCE_MS < ticks_diff 100 0 ∧ ticks_diff 120 100 < DEBOUNCE_MS ∧
      (debounceRun ⟨0, 0⟩ (twoEdgeTrace [5] 100 [105] 110 [] 120 [125] [130])).2 = 1 ∧
      (debounceRun ⟨0, 0⟩
          (twoEdgeTrace [5] 100 [105] 110 [] 120 [125] [130])).1.last_ms = 100 :=
  ⟨by decide, by decide,
    (c1_debounce_two_edges 0 100 120 110 [5] [105] [] [125] [130]
      (by decide) (by decide)).1,
    (c1_debounce_two_edges 0 100 120 110 [5] [105] [] [125] [130]
      (by decide) (by decide)).2⟩

/-- Witness for the amended C7 with the one-data-byte SysEx body [0x01]. -/
theorem c7_sysex_skip_witness :
    0xF7 ∉ [0x01] ∧
      skipSysex ([0x01] ++ 0xF7 :: [0x33]) = [0x33] ∧
      decode [0xF0, 0x01, 0x02, 0xF7, 0x90, 0x45, 0x7F] =
        ([(0x90, 0x45, 0x7F)], [0x45]) ∧
      decode [0xF0, 0xF7, 0x90, 0x45, 0x7F] = ([], []) :=
  ⟨by decide, c7_sysex_skip [0x01] [0x33] (by decide)⟩

/-- Claim C2: `note_on(69,127)` then `note_off(69,0)` encode (for any
constructor channel argument c, masked to a nibble) as exactly two 3-byte
messages whose status byte is the message-type nibble or-ed with the
channel nibble and whose data bytes are masked to 7 bits; feeding the six
bytes to the running-status decoder recovers the tuples
(note-on, 69, 127) then (note-off, 69, 0), and triggers playback only for
the first. -/
theorem c2_midi_roundtrip (c : Nat) :
    ((MidiOut.init c).note_on 69 127).length = 3 ∧
    ((MidiOut.init c).note_off 69 0).length = 3 ∧
    (MidiOut.init c).note_on 69 127 = [0x90 ||| (c &&& 0x0F), 69, 127] ∧
    (MidiOut.init c).note_off 69 0 = [0x80 ||| (c &&& 0x0F), 69, 0] ∧
    decode ((MidiOut.init c).note_on 69 127 ++ (MidiOut.init c).note_off 69 0) =
      ([(0x90, 69, 127), (0x80, 69, 0)], [69]) := by
  simp only [MidiOut.init, MidiOut.note_on, MidiOut.note_off]
  generalize hgen : c &&& 0x0F = x
  have hx : x < 16 := by
    rw [← hgen]
    exact Nat.lt_succ_of_le Nat.and_le_right
  interval_cases x <;> decide

/-! Helper lemmas for the WAV chunk scan. -/

theorem lenum_le32enc (n : Nat) (h : n < 2 ^ 32) : lenum (le32enc n) = n := by
  simp [lenum, le32enc]
  omega

theorem parseLoop_short (fuel : Nat) (l : List Nat)
    (info : Option (Nat × Nat × Nat)) (h : l.length < 8) :
    parseLoop fuel l info = .fail := by
  cases fuel with
  | zero => rfl
  | succ F =>
    have hl : (l.take 8).length < 8 := by simp; omega
    simp only [parseLoop]
    rw [if_pos hl]

/-- Scanning one chunk whose id is neither `fmt ` nor `data` skips exactly
its declared length. -/
theorem parseLoop_skip_chunk (fuel : Nat) (id payload tail : List Nat)
    (info : Option (Nat × Nat × Nat)) (hid : id.length = 4)
    (hf : id ≠ FMT_ID) (hd : id ≠ DATA_ID) (hp : payload.length < 2 ^ 32) :
    parseLoop (fuel + 1) (encChunk id payload ++ tail) info =
      parseLoop fuel tail info := by
  have hA : (id ++ le32enc payload.length).length = 8 := by
    simp [le32enc, hid]
  have hbs : encChunk id payload ++ tail =
      (id ++ le32enc payload.length) ++ (payload ++ tail) := by
    simp [encChunk, List.append_assoc]
  have htake : ((id ++ le32enc payload.length) ++ (payload ++ tail)).take 8 =
      id ++ le32enc payload.length := List.take_left' hA
  have hdrop : ((id ++ le32enc payload.length) ++ (payload ++ tail)).drop 8 =
      payload ++ tail := List.drop_left' hA
  have hcid : listSlice (id ++ le32enc payload.length) 0 4 = id := by
    simp only [listSlice, List.drop_zero]
    exact List.take_left' hid
  have hsz : listSlice (id ++ le32enc payload.length) 4 8 =
      le32enc payload.length := by
    simp only [listSlice]
    rw [List.take_of_length_le (le_of_eq hA), List.drop_left' hid]
  simp only [hbs, parseLoop, htake, hdrop, hcid, hsz, hA,
    lenum_le32enc payload.length hp, lt_irrefl, if_false, if_neg hf, if_neg hd]
  rw [List.drop_left]

/-- Scanning a sequence of skippable chunks consumes one fuel unit each and
leaves the scan at the tail. -/
theorem parseLoop_junk (js : List (List Nat × List Nat)) :
    ∀ (fuel : Nat) (tail : List Nat) (info : Option (Nat × Nat × Nat)),
      JunkWF js → js.length ≤ fuel →
      parseLoop fuel (flatJunk js ++ tail) info =
        parseLoop (fuel - js.length) tail info := by
  induction js with
  | nil => intro fuel tail info _ _; simp [flatJunk]
  | cons p js ih =>
    intro fuel tail info hwf hle
    obtain ⟨hid, hf, hd, hp⟩ := hwf p (List.mem_cons_self p js)
    have hwf2 : JunkWF js := fun q hq => hwf q (List.mem_cons_of_mem p hq)
    rw [List.length_cons] at hle
    cases fuel with
    | zero => omega
    | succ F =>
      have hflat : flatJunk (p :: js) ++ tail =
          encChunk p.1 p.2 ++ (flatJunk js ++ tail) := by
        simp [flatJunk, List.append_assoc]
      rw [hflat, parseLoop_skip_chunk F p.1 p.2 _ info hid hf hd hp,
          ih F tail info hwf2 (by omega), List.length_cons]
      congr 1
      omega

/-- Scanning the format chunk `fmtPayload16` records
`(channels, sampwidth, framerate) = (2, 2, 44100)` and moves past the
declared 16 payload bytes. -/
theorem parseLoop_fmt16 (fuel : Nat) (a0 a1 r0 r1 r2 r3 k0 k1 : Nat)
    (tail : List Nat) (info : Option (Nat × Nat × Nat)) :
    parseLoop (fuel + 1)
        (encChunk FMT_ID (fmtPayload16 a0 a1 r0 r1 r2 r3 k0 k1) ++ tail) info =
      parseLoop fuel tail (some (2, 2, 44100)) := by
  simp [parseLoop, encChunk, fmtPayload16, FMT_ID, DATA_ID, le32enc, listSlice,
    unpackH, unpackI, lenum]

/-- Scanning the data chunk header with a recorded format returns the
parsed info together with its declared length, leaving the stream at the
start of audio data. -/
theorem parseLoop_dataChunk (fuel : Nat) (sz : Nat) (rest : List Nat)
    (ch sw fr : Nat) (hsz : sz < 2 ^ 32) :
    parseLoop (fuel + 1) (DATA_ID ++ le32enc sz ++ rest) (some (ch, sw, fr)) =
      WavResult.ok ch sw fr sz rest := by
  have hl : lenum [sz % 256, sz / 256 % 256, sz / 65536 % 256,
      sz / 16777216 % 256] = sz := by
    simp [lenum]
    omega
  simp [parseLoop, DATA_ID, FMT_ID, le32enc, listSlice, hl]

/-- Scanning the data chunk header with no format chunk recorded yet
returns the parse failure (`return None`). -/
theorem parseLoop_dataChunk_noFmt (fuel : Nat) (sz : Nat) (rest : List Nat) :
    parseLoop (fuel + 1) (DATA_ID ++ le32enc sz ++ rest) none =
      WavResult.fail := by
  simp [parseLoop, DATA_ID, FMT_ID, le32enc, listSlice]

/-- A stream headed by a valid 12-byte RIFF/WAVE signature hands the chunk
scan the rest of the stream. -/
theorem parse_wav_header_sig (s0 s1 s2 s3 : Nat) (body : List Nat) :
    parse_wav_header (RIFF_ID ++ [s0, s1, s2, s3] ++ WAVE_ID ++ body) =
      parseLoop (body.length + 13) body none := by
  simp [parse_wav_header, RIFF_ID, WAVE_ID, listSlice]

theorem flatJunk_length_ge (js : List (List Nat × List Nat)) :
    js.length ≤ (flatJunk js).length := by
  induction js with
  | nil => simp [flatJunk]
  | cons p js ih =>
    simp only [flatJunk, List.length_append, List.length_cons, encChunk,
      le32enc, List.length_cons]
    simp at ih ⊢
    omega

/-- Claim C3: every open byte stream holding a valid 12-byte RIFF/WAVE
signature, any chunks other than format/data (each skipped by exactly its
declared 4-byte little-endian length), a format chunk declaring 2
channels, 16 bits per sample and 44100 Hz, more skippable chunks, and a
data chunk declaring 100 bytes, parses to
(channels=2, sampwidth=2, rate=44100, data_size=100), with the stream
left at the start of audio data. -/
theorem c3_wav_header_parse (s0 s1 s2 s3 a0 a1 r0 r1 r2 r3 k0 k1 : Nat)
    (js1 js2 : List (List Nat × List Nat)) (rest : List Nat)
    (hJ1 : JunkWF js1) (hJ2 : JunkWF js2) :
    parse_wav_header (RIFF_ID ++ [s0, s1, s2, s3] ++ WAVE_ID ++
        (flatJunk js1 ++ (encChunk FMT_ID (fmtPayload16 a0 a1 r0 r1 r2 r3 k0 k1) ++
          (flatJunk js2 ++ (DATA_ID ++ le32enc 100 ++ rest))))) =
      WavResult.ok 2 2 44100 100 rest := by
  have hg1 := flatJunk_length_ge js1
  have hg2 := flatJunk_length_ge js2
  rw [parse_wav_header_sig]
  generalize hL : (flatJunk js1 ++ (encChunk FMT_ID (fmtPayload16 a0 a1 r0 r1 r2 r3 k0 k1) ++
      (flatJunk js2 ++ (DATA_ID ++ le32enc 100 ++ rest)))).length = L
  have hLge : (flatJunk js1).length + (flatJunk js2).length + 32 + rest.length = L := by
    rw [← hL]
    simp [encChunk, fmtPayload16, le32enc, DATA_ID, FMT_ID]
    omega
  rw [parseLoop_junk js1 (L + 13) _ none hJ1 (by omega)]
  obtain ⟨F1, hF1⟩ : ∃ F1, L + 13 - js1.length = F1 + 1 ∧ js2.length + 1 ≤ F1 := by
    refine ⟨L + 12 - js1.length, by omega, by omega⟩
  rw [hF1.1, parseLoop_fmt16]
  rw [parseLoop_junk js2 F1 _ _ hJ2 (by omega)]
  obtain ⟨F2, hF2⟩ : ∃ F2, F1 - js2.length = F2 + 1 := ⟨F1 - js2.length - 1, by omega⟩
  rw [hF2, parseLoop_dataChunk F2 100 rest 2 2 44100 (by omega)]

/-- Witness for C3: one skippable 3-byte chunk before the format chunk and
one empty skippable chunk after it; 2 residual bytes after the data
declaration. -/
theorem c3_wav_header_parse_witness :
    JunkWF [([0x4C, 0x49, 0x53, 0x54], [9, 9, 9])] ∧
    JunkWF [([0x63, 0x75, 0x65, 0x20], [])] ∧
    parse_wav_header (RIFF_ID ++ [0, 1, 2, 3] ++ WAVE_ID ++
        (flatJunk [([0x4C, 0x49, 0x53, 0x54], [9, 9, 9])] ++
          (encChunk FMT_ID (fmtPayload16 1 0 0 0 0 0 0 0) ++
            (flatJunk [([0x63, 0x75, 0x65, 0x20], [])] ++
              (DATA_ID ++ le32enc 100 ++ [5, 6]))))) =
      WavResult.ok 2 2 44100 100 [5, 6] :=
  ⟨by decide, by decide,
    c3_wav_header_parse 0 1 2 3 1 0 0 0 0 0 0 0
      [([0x4C, 0x49, 0x53, 0x54], [9, 9, 9])] [([0x63, 0x75, 0x65, 0x20], [])]
      [5, 6] (by decide) (by decide)⟩

/-- On a parse failure, `play` closes the file and returns without any
`audio.write`. -/
theorem play_of_fail (bs : List Nat) (flags : List Bool)
    (h : parse_wav_header bs = WavResult.fail) :
    Player.play bs flags = ⟨[], true, 0, false⟩ := by
  simp [Player.play, h]

/-- Claim C9: `parse_wav_header` returns the failure `None` for (a) every
stream whose 12-byte signature check fails, (b) every stream whose data
chunk is reached with no format chunk seen before it, (c) every stream
that ends (fewer than 8 bytes left) without a data chunk, whether or not
a format chunk occurred; in each case `play` closes the stream and
returns without forwarding any audio. -/
theorem c9_parse_failure_drops (bs : List Nat)
    (s0 s1 s2 s3 a0 a1 r0 r1 r2 r3 k0 k1 dsz : Nat)
    (js1 js2 js3 : List (List Nat × List Nat))
    (restB leftover leftover2 : List Nat) (flags : List Bool)
    (hbad : (bs.take 12).length < 12 ∨ listSlice (bs.take 12) 0 4 ≠ RIFF_ID ∨
      listSlice (bs.take 12) 8 12 ≠ WAVE_ID)
    (hJ1 : JunkWF js1) (hJ2 : JunkWF js2) (hJ3 : JunkWF js3)
    (hleft : leftover.length < 8) (hleft2 : leftover2.length < 8) :
    parse_wav_header bs = WavResult.fail ∧
    parse_wav_header (RIFF_ID ++ [s0, s1, s2, s3] ++ WAVE_ID ++
        (flatJunk js1 ++ (DATA_ID ++ le32enc dsz ++ restB))) = WavResult.fail ∧
    parse_wav_header (RIFF_ID ++ [s0, s1, s2, s3] ++ WAVE_ID ++
        (flatJunk js2 ++ leftover)) = WavResult.fail ∧
    parse_wav_header (RIFF_ID ++ [s0, s1, s2, s3] ++ WAVE_ID ++
        (flatJunk js3 ++ (encChunk FMT_ID (fmtPayload16 a0 a1 r0 r1 r2 r3 k0 k1) ++
          leftover2))) = WavResult.fail ∧
    Player.play bs flags = ⟨[], true, 0, false⟩ ∧
    Player.play (RIFF_ID ++ [s0, s1, s2, s3] ++ WAVE_ID ++
        (flatJunk js1 ++ (DATA_ID ++ le32enc dsz ++ restB))) flags =
      ⟨[], true, 0, false⟩ ∧
    Player.play (RIFF_ID ++ [s0, s1, s2, s3] ++ WAVE_ID ++
        (flatJunk js2 ++ leftover)) flags = ⟨[], true, 0, false⟩ ∧
    Player.play (RIFF_ID ++ [s0, s1, s2, s3] ++ WAVE_ID ++
        (flatJunk js3 ++ (encChunk FMT_ID (fmtPayload16 a0 a1 r0 r1 r2 r3 k0 k1) ++
          leftover2))) flags = ⟨[], true, 0, false⟩ := by
  have hA : parse_wav_header bs = WavResult.fail := by
    unfold parse_wav_header
    rw [if_pos hbad]
  have hB : parse_wav_header (RIFF_ID ++ [s0, s1, s2, s3] ++ WAVE_ID ++
      (flatJunk js1 ++ (DATA_ID ++ le32enc dsz ++ restB))) = WavResult.fail := by
    have hg1 := flatJunk_length_ge js1
    rw [parse_wav_header_sig]
    generalize hL : (flatJunk js1 ++ (DATA_ID ++ le32enc dsz ++ restB)).length = L
    have hLge : (flatJunk js1).length ≤ L := by
      rw [← hL]
      simp
    rw [parseLoop_junk js1 (L + 13) _ none hJ1 (by omega)]
    obtain ⟨F1, hF1⟩ : ∃ F1, L + 13 - js1.length = F1 + 1 :=
      ⟨L + 12 - js1.length, by omega⟩
    rw [hF1, parseLoop_dataChunk_noFmt]
  have hC : parse_wav_header (RIFF_ID ++ [s0, s1, s2, s3] ++ WAVE_ID ++
      (flatJunk js2 ++ leftover)) = WavResult.fail := by
    rw [parse_wav_header_sig]
    rw [parseLoop_junk js2 _ _ none hJ2 (by
      have := flatJunk_length_ge js2
      have : (flatJunk js2 ++ leftover).length = (flatJunk js2).length + leftover.length := by simp
      omega)]
    exact parseLoop_short _ leftover none hleft
  have hD : parse_wav_header (RIFF_ID ++ [s0, s1, s2, s3] ++ WAVE_ID ++
      (flatJunk js3 ++ (encChunk FMT_ID (fmtPayload16 a0 a1 r0 r1 r2 r3 k0 k1) ++
        leftover2))) = WavResult.fail := by
    have hg3 := flatJunk_length_ge js3
    rw [parse_wav_header_sig]
    generalize hL : (flatJunk js3 ++ (encChunk FMT_ID (fmtPayload16 a0 a1 r0 r1 r2 r3 k0 k1) ++
        leftover2)).length = L
    have hLge : (flatJunk js3).length ≤ L := by
      rw [← hL]
      simp
    rw [parseLoop_junk js3 (L + 13) _ none hJ3 (by omega)]
    obtain ⟨F1, hF1⟩ : ∃ F1, L + 13 - js3.length = F1 + 1 :=
      ⟨L + 12 - js3.length, by omega⟩
    rw [hF1, parseLoop_fmt16]
    exact parseLoop_short _ leftover2 _ hleft2
  exact ⟨hA, hB, hC, hD, play_of_fail _ flags hA, play_of_fail _ flags hB,
    play_of_fail _ flags hC, play_of_fail _ flags hD⟩

/-- Witness for C9: a truncated signature, a data-before-format stream, a
junk-only stream, and a format-but-no-data stream. -/
theorem c9_parse_failure_drops_witness :
    (([0x52, 0x49] : List Nat).take 12).length < 12 ∧
    JunkWF [([0x4C, 0x49, 0x53, 0x54], [7])] ∧ (55 : Nat) < 2 ^ 32 ∧
    ([] : List Nat).length < 8 ∧ ([9] : List Nat).length < 8 ∧
    parse_wav_header [0x52, 0x49] = WavResult.fail ∧
    parse_wav_header (RIFF_ID ++ [0, 0, 0, 0] ++ WAVE_ID ++
        (flatJunk [([0x4C, 0x49, 0x53, 0x54], [7])] ++
          (DATA_ID ++ le32enc 55 ++ [1, 2]))) = WavResult.fail ∧
    Player.play [0x52, 0x49] [] = ⟨[], true, 0, false⟩ := by
  have h := c9_parse_failure_drops [0x52, 0x49] 0 0 0 0 1 0 0 0 0 0 0 0 55
    [([0x4C, 0x49, 0x53, 0x54], [7])] [] [] [1, 2] [] [] []
    (Or.inl (by decide)) (by decide) (by decide) (by decide) (by decide)
    (by decide)
  exact ⟨by decide, by decide, by decide, by decide, by decide,
    h.1, h.2.1, h.2.2.2.2.1⟩

theorem parse_minimalWav (dataSize : Nat) (payload : List Nat)
    (h : dataSize < 2 ^ 32) :
    parse_wav_header (minimalWav dataSize payload) =
      WavResult.ok 2 2 44100 dataSize payload := by
  unfold minimalWav
  rw [parse_wav_header_sig]
  have e1 : (encChunk FMT_ID (fmtPayload16 1 0 0 0 0 0 0 0) ++
      (DATA_ID ++ le32enc dataSize ++ payload)).length + 13 =
      ((encChunk FMT_ID (fmtPayload16 1 0 0 0 0 0 0 0) ++
        (DATA_ID ++ le32enc dataSize ++ payload)).length + 12) + 1 := rfl
  have e2 : (encChunk FMT_ID (fmtPayload16 1 0 0 0 0 0 0 0) ++
      (DATA_ID ++ le32enc dataSize ++ payload)).length + 12 =
      ((encChunk FMT_ID (fmtPayload16 1 0 0 0 0 0 0 0) ++
        (DATA_ID ++ le32enc dataSize ++ payload)).length + 11) + 1 := rfl
  rw [e1, parseLoop_fmt16, e2, parseLoop_dataChunk _ dataSize payload 2 2 44100 h]

/-- The streaming loop, with inbound bytes first reported at the k-th
`uart.any()` check and enough remaining data, stops after exactly k chunk
writes with `remaining` still positive. -/
theorem playLoop_abort (k : Nat) :
    ∀ (fuel remaining : Nat) (bs : List Nat) (flags : List Bool) (is8 : Bool),
      flags.take k = List.replicate k false →
      flags.getD k false = true →
      k * CHUNK < remaining →
      remaining ≤ bs.length →
      remaining < fuel →
      (playLoop fuel bs remaining flags is8).2 = remaining - k * CHUNK ∧
      (playLoop fuel bs remaining flags is8).1.length = k := by
  induction k with
  | zero =>
    intro fuel remaining bs flags is8 h1 h2 h3 h4 h5
    match flags with
    | [] => simp at h2
    | f :: fs =>
      simp only [List.getD_cons_zero] at h2
      match fuel with
      | 0 => omega
      | F + 1 =>
        simp only [playLoop, List.headD_cons, h2]
        rw [if_neg (by omega)]
        simp
  | succ k ih =>
    intro fuel remaining bs flags is8 h1 h2 h3 h4 h5
    match flags with
    | [] => simp at h1
    | f :: fs =>
      rw [List.take_succ_cons, List.replicate_succ, List.cons.injEq] at h1
      obtain ⟨hf, hfs⟩ := h1
      rw [List.getD_cons_succ] at h2
      have hch : CHUNK = 1024 := rfl
      have hrem : 1024 < remaining := by
        have := Nat.le_add_left (1 * CHUNK) (k * CHUNK)
        rw [hch] at h3
        omega
      match fuel with
      | 0 => omega
      | F + 1 =>
        have hn : min (min CHUNK remaining) bs.length = 1024 := by
          rw [hch]
          omega
        simp only [playLoop, List.headD_cons, hf, List.tail_cons]
        rw [if_neg (by omega), if_neg (by simp), hn, if_neg (by omega)]
        have hrec := ih F (remaining - 1024) (bs.drop 1024) fs is8 hfs h2
          (by rw [hch] at h3 ⊢; omega)
          (by simp [List.length_drop]; omega)
          (by omega)
        rw [hch]
        constructor
        · rw [hrec.1, hch]
          omega
        · simp only [List.length_cons, hrec.2]

/-- Claim C4: `play` streams fixed-size chunks, checking for new inbound
MIDI bytes before each read; when bytes first arrive at the k-th check
(before the declared data is exhausted), the stream is aborted immediately
with data still remaining, exactly k chunk writes have happened, the flush
silence is written last, and the file is closed — so a second play request
started afterwards never overlaps the first (`closed = true` on every
exit path of `play`). -/
theorem c4_voice_steal_abort (dataSize k : Nat) (payload : List Nat)
    (flags : List Bool)
    (h1 : flags.take k = List.replicate k false)
    (h2 : flags.getD k false = true)
    (h3 : k * CHUNK < dataSize)
    (h4 : dataSize ≤ payload.length)
    (h5 : dataSize < 2 ^ 32) :
    (Player.play (minimalWav dataSize payload) flags).closed = true ∧
    (Player.play (minimalWav dataSize payload) flags).remainingAtExit =
      dataSize - k * CHUNK ∧
    0 < (Player.play (minimalWav dataSize payload) flags).remainingAtExit ∧
    (Player.play (minimalWav dataSize payload) flags).writes.length = k + 1 ∧
    (Player.play (minimalWav dataSize payload) flags).writes.getLast? =
      some silenceBytes := by
  have hp := parse_minimalWav dataSize payload h5
  have hab := playLoop_abort k (dataSize + 1) dataSize payload flags
    false h1 h2 h3 h4 (by omega)
  have hch : CHUNK = 1024 := rfl
  simp [Player.play, hp, List.getLast?_concat, hab.1, hab.2]
  rw [hch] at h3 ⊢
  omega

set_option maxRecDepth 16384 in
/-- Witness for C4: an 1100-byte declared stream with inbound bytes first
seen at the second check aborts after one 1024-byte chunk. -/
theorem c4_voice_steal_abort_witness :
    ([false, true].take 1 = List.replicate 1 false) ∧
    ([false, true].getD 1 false = true) ∧ 1 * CHUNK < 1100 ∧
    1100 ≤ (List.replicate 1100 (0 : Nat)).length ∧ (1100 : Nat) < 2 ^ 32 ∧
    ((Player.play (minimalWav 1100 (List.replicate 1100 0)) [false, true]).closed
        = true ∧
      (Player.play (minimalWav 1100 (List.replicate 1100 0))
          [false, true]).remainingAtExit = 1100 - 1 * CHUNK ∧
      0 < (Player.play (minimalWav 1100 (List.replicate 1100 0))
          [false, true]).remainingAtExit ∧
      (Player.play (minimalWav 1100 (List.replicate 1100 0))
          [false, true]).writes.length = 1 + 1 ∧
      (Player.play (minimalWav 1100 (List.replicate 1100 0))
          [false, true]).writes.getLast? = some silenceBytes) :=
  ⟨by decide, by decide, by decide, by decide, by decide,
    c4_voice_steal_abort 1100 1 (List.replicate 1100 0) [false, true]
      (by decide) (by decide) (by decide) (by decide) (by decide)⟩
